import Mathlib

/-!
Verification of the creative-effectiveness evaluation engine
(`backend/creative_effectiveness/evaluation.py` together with
`roles.py` and `models.py`).

Python strings are modelled as `List Char`, Python floats as `ℚ`
(the constants appearing in the engine are all exactly representable;
Python's float rounding is noted where it matters).  Fallible Python
code (`raise` / `except`) is modelled with `Except (List Char) α`,
where the carried `List Char` is `str(e)` of the raised exception.
-/

set_option maxRecDepth 4000

-- ===========================================================================
-- Python string helpers (find / strip / lower / substring containment)
-- ===========================================================================

/-- Whitespace characters recognised by Python's `str.strip()` (ASCII part;
the engine only ever strips model output, and the claims only exercise
ASCII whitespace). -/
def isPyWs (c : Char) : Bool :=
  c = ' ' || c = '\t' || c = '\n' || c = '\x0d' || c = '\x0b' || c = '\x0c'

/-- `s.strip()`. -/
def pyStrip (cs : List Char) : List Char :=
  ((cs.dropWhile isPyWs).reverse.dropWhile isPyWs).reverse

/-- `haystack.find(needle)` (index of the first occurrence, `none` for `-1`).
`strFind needle hay` scans `hay` left to right. -/
def strFind (needle : List Char) : List Char → Option Nat
  | [] => if needle.isEmpty then some 0 else none
  | c :: tail =>
    if needle.isPrefixOf (c :: tail) then some 0
    else (strFind needle tail).map (· + 1)

/-- `needle in haystack` for Python strings. -/
def containsSub (needle hay : List Char) : Bool :=
  (strFind needle hay).isSome

/-- The `"429" in str(e)` test used by `evaluate_with_role` to decide whether
an exception is rate-limit-class. -/
def contains429 (m : List Char) : Bool :=
  containsSub ("429".toList) m

-- ===========================================================================
-- JSON values (the result of Python's json.loads)
-- ===========================================================================

/-- A decoded JSON value.  Objects are insertion-ordered key/value lists with
unique keys (duplicate keys overwrite in place, like a Python dict).
Numbers are `ℚ` (Python ints and floats are not distinguished; none of the
engine's logic distinguishes them). -/
inductive JValue where
  | jnull
  | jbool (b : Bool)
  | jnum (q : ℚ)
  | jstr (s : List Char)
  | jarr (elems : List JValue)
  | jobj (fields : List (List Char × JValue))

/-- Insert into a Python dict: overwrite in place if the key exists,
else append. -/
def dictInsert (fields : List (List Char × JValue)) (k : List Char) (v : JValue) :
    List (List Char × JValue) :=
  if fields.any (fun p => p.1 = k) then
    fields.map (fun p => if p.1 = k then (k, v) else p)
  else fields ++ [(k, v)]

/-- `d.get(k)` (`none` when the key is absent). -/
def jGet (fields : List (List Char × JValue)) (k : List Char) : Option JValue :=
  (fields.find? (fun p => p.1 = k)).map (·.2)

/-- `d.get(k, default)`. -/
def jGetD (fields : List (List Char × JValue)) (k : List Char) (d : JValue) : JValue :=
  (jGet fields k).getD d

/-- Decimal rendering helpers for embedding offending values in
validation-error text (Python renders echoed values with `str`). -/
def natRender (n : Nat) : List Char := Nat.toDigits 10 n

def intRender (i : Int) : List Char :=
  if i < 0 then '-' :: natRender i.natAbs else natRender i.natAbs

/-- Rendering of a number: exact integers render as Python ints do; other
rationals render as `num/den` — an approximation of Python's float repr
that nothing inspects beyond its digit content. -/
def ratRender (q : ℚ) : List Char :=
  if q.den = 1 then intRender q.num
  else intRender q.num ++ ('/' :: natRender q.den)

mutual

/-- `str(value)` of a decoded JSON value, as pydantic embeds it into
validation-error text (`given=...` in v1, `input_value=...` in v2). -/
def jRender : JValue → List Char
  | JValue.jnull => "None".toList
  | JValue.jbool true => "True".toList
  | JValue.jbool false => "False".toList
  | JValue.jnum q => ratRender q
  | JValue.jstr s => s
  | JValue.jarr xs => ('[' :: jRenderElems xs) ++ [']']
  | JValue.jobj fs => ('\x7b' :: jRenderFields fs) ++ ['\x7d']

def jRenderElems : List JValue → List Char
  | [] => []
  | [x] => jRender x
  | x :: xs => jRender x ++ (", ".toList) ++ jRenderElems xs

def jRenderFields : List (List Char × JValue) → List Char
  | [] => []
  | [(k, v)] => k ++ (": ".toList) ++ jRender v
  | (k, v) :: fs => k ++ (": ".toList) ++ jRender v ++ (", ".toList) ++ jRenderFields fs

end

-- ===========================================================================
-- json.loads
-- ===========================================================================

/-- JSON structural whitespace (as accepted by `json.loads`). -/
def isJsonWs (c : Char) : Bool :=
  c = ' ' || c = '\t' || c = '\n' || c = '\x0d'

def skipWs (cs : List Char) : List Char := cs.dropWhile isJsonWs

def hexVal (c : Char) : Option Nat :=
  if '0' ≤ c ∧ c ≤ '9' then some (c.toNat - '0'.toNat)
  else if 'a' ≤ c ∧ c ≤ 'f' then some (c.toNat - 'a'.toNat + 10)
  else if 'A' ≤ c ∧ c ≤ 'F' then some (c.toNat - 'A'.toNat + 10)
  else none

/-- Body of a JSON string after the opening quote.  Returns the decoded
characters and the remainder after the closing quote.  Escaped surrogate
pairs are combined; lone escaped surrogates are rejected (Python keeps them
as surrogate code units, which `Char` cannot represent; no claim depends on
this corner). -/
def parseStringBody : Nat → List Char → Option (List Char × List Char)
  | 0, _ => none
  | _, [] => none
  | fuel + 1, c :: rest =>
    if c = '"' then some ([], rest)
    else if c = '\\' then
      match rest with
      | [] => none
      | e :: rest2 =>
        if e = '"' ∨ e = '\\' ∨ e = '/' then
          (parseStringBody fuel rest2).map (fun p => (e :: p.1, p.2))
        else if e = 'b' then (parseStringBody fuel rest2).map (fun p => ('\x08' :: p.1, p.2))
        else if e = 'f' then (parseStringBody fuel rest2).map (fun p => ('\x0c' :: p.1, p.2))
        else if e = 'n' then (parseStringBody fuel rest2).map (fun p => ('\n' :: p.1, p.2))
        else if e = 'r' then (parseStringBody fuel rest2).map (fun p => ('\x0d' :: p.1, p.2))
        else if e = 't' then (parseStringBody fuel rest2).map (fun p => ('\t' :: p.1, p.2))
        else if e = 'u' then
          match rest2 with
          | h1 :: h2 :: h3 :: h4 :: rest3 =>
            match hexVal h1, hexVal h2, hexVal h3, hexVal h4 with
            | some a, some b, some c2, some d =>
              let n := ((a * 16 + b) * 16 + c2) * 16 + d
              if 0xD800 ≤ n ∧ n ≤ 0xDBFF then
                match rest3 with
                | '\\' :: 'u' :: g1 :: g2 :: g3 :: g4 :: rest4 =>
                  match hexVal g1, hexVal g2, hexVal g3, hexVal g4 with
                  | some a2, some b2, some c3, some d2 =>
                    let lo := ((a2 * 16 + b2) * 16 + c3) * 16 + d2
                    if 0xDC00 ≤ lo ∧ lo ≤ 0xDFFF then
                      let cp := 0x10000 + (n - 0xD800) * 0x400 + (lo - 0xDC00)
                      (parseStringBody fuel rest4).map (fun p => (Char.ofNat cp :: p.1, p.2))
                    else none
                  | _, _, _, _ => none
                | _ => none
              else if 0xDC00 ≤ n ∧ n ≤ 0xDFFF then none
              else (parseStringBody fuel rest3).map (fun p => (Char.ofNat n :: p.1, p.2))
            | _, _, _, _ => none
          | _ => none
        else none
    else if c.toNat < 0x20 then none
    else (parseStringBody fuel rest).map (fun p => (c :: p.1, p.2))
termination_by structural fuel _ => fuel

def digitsToNat (ds : List Char) : Nat :=
  ds.foldl (fun n c => n * 10 + (c.toNat - '0'.toNat)) 0

def pow10 : Nat → ℚ
  | 0 => 1
  | n + 1 => 10 * pow10 n

/-- JSON number grammar `-?(0|[1-9][0-9]*)(\.[0-9]+)?([eE][+-]?[0-9]+)?`
(the regex used by Python's scanner).  A leading `0` consumes only itself,
so `0123` leaves `123` unconsumed and the caller then fails, matching
`json.loads`.  Python's nonstandard `NaN`/`Infinity` extensions are not
modelled (no claim touches them). -/
def parseNumber (cs : List Char) : Option (ℚ × List Char) :=
  let signed := match cs with
    | '-' :: r => (true, r)
    | _ => (false, cs)
  let neg := signed.1
  let cs1 := signed.2
  match cs1 with
  | [] => none
  | c :: _ =>
    if ¬ c.isDigit then none
    else
      let intPart :=
        if c = '0' then (['0'], cs1.tail)
        else (cs1.takeWhile Char.isDigit, cs1.dropWhile Char.isDigit)
      let intVal : ℚ := (digitsToNat intPart.1 : ℚ)
      let afterInt := intPart.2
      let fracStep :=
        match afterInt with
        | '.' :: r =>
          let ds := r.takeWhile Char.isDigit
          if ds.isEmpty then (intVal, afterInt)
          else (intVal + (digitsToNat ds : ℚ) / pow10 ds.length, r.dropWhile Char.isDigit)
        | _ => (intVal, afterInt)
      let mantissa := fracStep.1
      let afterFrac := fracStep.2
      let expStep :=
        match afterFrac with
        | 'e' :: r => (some r, afterFrac)
        | 'E' :: r => (some r, afterFrac)
        | _ => (none, afterFrac)
      let applied :=
        match expStep.1 with
        | some r =>
          let esigned := match r with
            | '+' :: r2 => (false, r2)
            | '-' :: r2 => (true, r2)
            | _ => (false, r)
          let ds := esigned.2.takeWhile Char.isDigit
          if ds.isEmpty then (mantissa, afterFrac)
          else
            let e := digitsToNat ds
            (if esigned.1 then mantissa / pow10 e else mantissa * pow10 e,
             esigned.2.dropWhile Char.isDigit)
        | none => (mantissa, afterFrac)
      some (if neg then -applied.1 else applied.1, applied.2)

mutual

def parseValue : Nat → List Char → Option (JValue × List Char)
  | 0, _ => none
  | fuel + 1, cs =>
    match skipWs cs with
    | [] => none
    | c :: rest =>
      if c = '\x7b' then parseObjStart fuel rest
      else if c = '[' then parseArrStart fuel rest
      else if c = '"' then
        (parseStringBody (rest.length + 1) rest).map (fun p => (JValue.jstr p.1, p.2))
      else if c = 't' then
        if ("rue".toList).isPrefixOf rest then some (JValue.jbool true, rest.drop 3) else none
      else if c = 'f' then
        if ("alse".toList).isPrefixOf rest then some (JValue.jbool false, rest.drop 4) else none
      else if c = 'n' then
        if ("ull".toList).isPrefixOf rest then some (JValue.jnull, rest.drop 3) else none
      else
        (parseNumber (c :: rest)).map (fun p => (JValue.jnum p.1, p.2))
termination_by structural fuel => fuel

/-- After the opening `{`. -/
def parseObjStart : Nat → List Char → Option (JValue × List Char)
  | 0, _ => none
  | fuel + 1, cs =>
    match skipWs cs with
    | '\x7d' :: rest => some (JValue.jobj [], rest)
    | other => parseObjMembers fuel other []
termination_by structural fuel => fuel

def parseObjMembers : Nat → List Char → List (List Char × JValue) →
    Option (JValue × List Char)
  | 0, _, _ => none
  | fuel + 1, cs, acc =>
    match skipWs cs with
    | '"' :: rest =>
      match parseStringBody (rest.length + 1) rest with
      | none => none
      | some (key, afterKey) =>
        match skipWs afterKey with
        | ':' :: afterColon =>
          match parseValue fuel afterColon with
          | none => none
          | some (v, afterVal) =>
            let acc2 := dictInsert acc key v
            match skipWs afterVal with
            | ',' :: r => parseObjMembers fuel r acc2
            | '\x7d' :: r => some (JValue.jobj acc2, r)
            | _ => none
        | _ => none
    | _ => none
termination_by structural fuel => fuel

/-- After the opening `[`. -/
def parseArrStart : Nat → List Char → Option (JValue × List Char)
  | 0, _ => none
  | fuel + 1, cs =>
    match skipWs cs with
    | ']' :: rest => some (JValue.jarr [], rest)
    | _ => parseArrMembers fuel cs []
termination_by structural fuel => fuel

def parseArrMembers : Nat → List Char → List JValue → Option (JValue × List Char)
  | 0, _, _ => none
  | fuel + 1, cs, acc =>
    match parseValue fuel cs with
    | none => none
    | some (v, afterVal) =>
      match skipWs afterVal with
      | ',' :: r => parseArrMembers fuel r (acc ++ [v])
      | ']' :: r => some (JValue.jarr (acc ++ [v]), r)
      | _ => none
termination_by structural fuel => fuel

end

/-- `json.loads`: decode one JSON value and require only whitespace after it.
The fuel `2 * length + 2` strictly dominates the recursion depth (each unit
of nesting consumes at least one input character and at most two fuel). -/
def json_loads (cs : List Char) : Option JValue :=
  match parseValue (2 * cs.length + 2) cs with
  | some (v, rest) => if (skipWs rest).isEmpty then some v else none
  | none => none

-- ===========================================================================
-- parse_evaluation_response (evaluation.py lines 218-244)
-- ===========================================================================

def jsonFence : List Char := "```json".toList

def fence3 : List Char := "```".toList

/-- The fenced-code-block extraction at the top of `parse_evaluation_response`:
prefer a ```json block, else any ``` block; on a successful extraction the
inner content is stripped, otherwise the text is left unchanged (including
when the closing fence is missing or immediately adjacent). -/
def extractFenced (content : List Char) : List Char :=
  match strFind jsonFence content with
  | some i =>
    let start := i + 7
    match strFind fence3 (content.drop start) with
    | some j => if 0 < j then pyStrip ((content.drop start).take j) else content
    | none => content
  | none =>
    match strFind fence3 content with
    | some i =>
      let start := i + 3
      match strFind fence3 (content.drop start) with
      | some j => if 0 < j then pyStrip ((content.drop start).take j) else content
      | none => content
    | none => content

/-- The regex fallback `re.search(r'\x7b[\s\S]*\x7d', content)`: the greedy
match runs from the first `{` to the last `}`, provided the latter comes
strictly after the former. -/
def braceSpan (cs : List Char) : Option (List Char) :=
  match strFind ['\x7b'] cs with
  | none => none
  | some i =>
    match strFind ['\x7d'] cs.reverse with
    | none => none
    | some jrev =>
      let j := cs.length - 1 - jrev
      if i < j then some ((cs.drop i).take (j + 1 - i)) else none

/-- The fixed fallback dict returned when nothing decodes. -/
def parse_fallback : JValue :=
  JValue.jobj
    [ (("result").toList, JValue.jstr ("PASS".toList)),
      (("score").toList, JValue.jnum 5),
      (("confidence").toList, JValue.jnum 0.3),
      (("justification").toList, JValue.jstr ("Failed to parse response".toList)) ]

/-- `parse_evaluation_response`: fence extraction, then strict decode, then
decode of the brace-delimited span, then the fallback constant.  Total by
construction — the Python version catches every decode error. -/
def parse_evaluation_response (content : List Char) : JValue :=
  let c := extractFenced content
  match json_loads c with
  | some v => v
  | none =>
    match braceSpan c with
    | some span =>
      match json_loads span with
      | some v => v
      | none => parse_fallback
    | none => parse_fallback

-- ===========================================================================
-- Data model (models.py) — the parts the claims exercise.
-- `score`/`confidence` are `ℚ`; pydantic's range constraints are enforced by
-- the validation step modelled below.  Fields that only feed the prompt
-- builder, the contextual baseline or the analysis appendix (none of which
-- any claim mentions) are omitted.
-- ===========================================================================

inductive EvalResult where
  | PASS
  | FAIL
deriving DecidableEq

structure LayerScore where
  layer_id : List Char
  layer_name : List Char
  sub_scores : List (List Char × JValue)
  fail_conditions : List (List Char)
  evidence_notes : List (List Char)
  verdict : List Char

structure RoleEvaluation where
  role_id : Nat
  role_name : List Char
  is_hard_gate : Bool
  result : EvalResult
  score : Option ℚ
  confidence : ℚ
  justification : List Char
  layer_scores : List LayerScore

structure FinalReport where
  verdict : List Char
  top_strengths : List (List Char)
  top_risks : List (List Char)
  predicted_commercial_role : List Char
  revision_guidance : Option (List Char)
  confidence_level : List Char

/-- The run's terminal artifact.  `evaluation_id`, `created_at`,
`input_summary` (a uuid, a timestamp and an input echo) and the
`analysis_appendix` are omitted: no claim refers to them. -/
structure EvaluationResult where
  role_evaluations : List RoleEvaluation
  final_effectiveness_index : ℚ
  final_report : FinalReport
  hard_gate_failed : Bool
  failed_hard_gate_role : Option (List Char)

/-- `CampaignObjective` (models.py). -/
inductive CampaignObjective where
  | LONG_TERM_BRAND
  | SHORT_TERM_ACTIVATION
  | MIXED
deriving DecidableEq

def CampaignObjective.value : CampaignObjective → List Char
  | .LONG_TERM_BRAND => "Long-term brand growth".toList
  | .SHORT_TERM_ACTIVATION => "Short-term activation".toList
  | .MIXED => "Mixed".toList

/-- `EvaluationInput`, reduced to the only field the modelled pipeline reads
(`campaign_objective`); the other validated fields feed the prompt builder,
the contextual baseline and the result's input echo, which are outside every
claim and are abstracted into the per-role query outcome. -/
structure EvaluationInput where
  campaign_objective : CampaignObjective

-- ===========================================================================
-- Role registry (roles.py).  `system_prompt` texts are omitted: they are
-- only ever rendered into the query messages, which the model abstracts
-- into the per-role query outcome.
-- ===========================================================================

structure RoleDefinition where
  id : Nat
  name : List Char
  short_name : List Char
  is_hard_gate : Bool
  framework_layers : List (List Char)
  weight : ℚ
deriving DecidableEq

def role1 : RoleDefinition :=
  { id := 1, name := "Creative Effectiveness Strategist".toList,
    short_name := "Lead Strategist".toList, is_hard_gate := false,
    framework_layers := ["A".toList, "B".toList, "C".toList, "D".toList, "E".toList, "F".toList],
    weight := 1.5 }

def role2 : RoleDefinition :=
  { id := 2, name := "Commercial Impact Analyst".toList,
    short_name := "Commercial Analyst".toList, is_hard_gate := true,
    framework_layers := ["C".toList, "E".toList, "F".toList],
    weight := 1.2 }

def role3 : RoleDefinition :=
  { id := 3, name := "Brand Memory & Distinctiveness Specialist".toList,
    short_name := "Brand Specialist".toList, is_hard_gate := true,
    framework_layers := ["A".toList, "B".toList],
    weight := 1.2 }

def role4 : RoleDefinition :=
  { id := 4, name := "Audience Reality & Behavioural Psychologist".toList,
    short_name := "Behavioural Psychologist".toList, is_hard_gate := false,
    framework_layers := ["A".toList, "D".toList, "E".toList],
    weight := 1.0 }

def role5 : RoleDefinition :=
  { id := 5, name := "Competitive & Category Context Analyst".toList,
    short_name := "Competitive Analyst".toList, is_hard_gate := false,
    framework_layers := ["B".toList, "C".toList],
    weight := 1.0 }

def role6 : RoleDefinition :=
  { id := 6, name := "Creative Pattern Breaker".toList,
    short_name := "Pattern Breaker".toList, is_hard_gate := false,
    framework_layers := ["A".toList, "D".toList, "F".toList],
    weight := 0.8 }

def role7 : RoleDefinition :=
  { id := 7, name := "Measurement & Evidence Validator".toList,
    short_name := "Evidence Validator".toList, is_hard_gate := false,
    framework_layers := ["C".toList, "E".toList, "F".toList],
    weight := 0.9 }

def role8 : RoleDefinition :=
  { id := 8, name := "Market & Local Context Specialist".toList,
    short_name := "Local Specialist".toList, is_hard_gate := false,
    framework_layers := ["B".toList, "C".toList],
    weight := 0.8 }

/-- `get_all_roles()`: the dict's values in insertion order, i.e. by id. -/
def get_all_roles : List RoleDefinition :=
  [role1, role2, role3, role4, role5, role6, role7, role8]

/-- `get_role_weights().get(role_id, 1.0)` as used by `calculate_fei`. -/
def role_weights_get (role_id : Nat) : ℚ :=
  ((get_all_roles.find? (fun r => r.id = role_id)).map (fun r => r.weight)).getD 1

-- ===========================================================================
-- Pydantic validation of the parsed reply (the `RoleEvaluation(...)` and
-- `LayerScore(...)` constructions inside `evaluate_with_role` /
-- `parse_layer_scores`).  A validation failure raises inside the `try`
-- block and is caught by the generic handler, exactly like any other
-- per-role error.  Modelling notes: pydantic v1's looser coercions
-- (numeric strings to float, numbers to str, bool to float) are modelled
-- as validation errors — no claim exercises them and both sides degrade
-- identically through the generic handler.  The carried error text stands
-- in for `str(ValidationError)`.  Crucially, pydantic echoes the offending
-- reply value into that text (v1 renders `given=...` in the error context,
-- v2 renders `input_value=...`), so the text of a validation failure can
-- itself contain "429" — and `evaluate_with_role`'s substring test then
-- re-raises it like a rate-limit error.  The model keeps exactly that
-- property: every validation-failure message is a fixed digit-free
-- template followed by `jRender` of the offending value.  (The literal
-- template wording differs between pydantic versions and is not
-- reproduced; the engine only ever asks whether the text contains "429".)
-- ===========================================================================

/-- Sequence a fallible map over a list, short-circuiting on the first
error (the shape shared by pydantic's element-wise validation and the
orchestrator's gather). -/
def mapExcept (f : α → Except (List Char) β) : List α → Except (List Char) (List β)
  | [] => Except.ok []
  | x :: xs =>
    match f x with
    | Except.error m => Except.error m
    | Except.ok y =>
      match mapExcept f xs with
      | Except.error m => Except.error m
      | Except.ok ys => Except.ok (y :: ys)

/-- The `str(ValidationError)` stand-in: a fixed digit-free template with
the offending value echoed, as pydantic does. -/
def validation_error_msg (v : JValue) : List Char :=
  ("validation error for RoleEvaluation; given=".toList) ++ jRender v

/-- `str(AttributeError)` names only the offending *type*
("'list' object has no attribute 'get'"), never the value; no Python type
name contains "429", so a fixed stand-in is faithful here. -/
def attribute_error_msg : List Char :=
  "object has no attribute get".toList

/-- `result` must be the literal "PASS" or "FAIL". -/
def validate_result_field (v : JValue) : Except (List Char) EvalResult :=
  match v with
  | JValue.jstr s =>
    if s = "PASS".toList then Except.ok EvalResult.PASS
    else if s = "FAIL".toList then Except.ok EvalResult.FAIL
    else Except.error (validation_error_msg (JValue.jstr s))
  | _ => Except.error (validation_error_msg v)

/-- `score : Optional[float]`, constrained to [0, 10]. -/
def validate_score_field (v : Option JValue) : Except (List Char) (Option ℚ) :=
  match v with
  | none => Except.ok none
  | some JValue.jnull => Except.ok none
  | some (JValue.jnum q) =>
    if 0 ≤ q ∧ q ≤ 10 then Except.ok (some q)
    else Except.error (validation_error_msg (JValue.jnum q))
  | some x => Except.error (validation_error_msg x)

/-- `confidence : float`, constrained to [0, 1]. -/
def validate_confidence_field (v : JValue) : Except (List Char) ℚ :=
  match v with
  | JValue.jnum q =>
    if 0 ≤ q ∧ q ≤ 1 then Except.ok q
    else Except.error (validation_error_msg (JValue.jnum q))
  | _ => Except.error (validation_error_msg v)

/-- A required `str` field. -/
def validate_text_field (v : JValue) : Except (List Char) (List Char) :=
  match v with
  | JValue.jstr s => Except.ok s
  | _ => Except.error (validation_error_msg v)

/-- A `List[str]` field. -/
def validate_str_list_field (v : JValue) : Except (List Char) (List (List Char)) :=
  match v with
  | JValue.jarr xs =>
    mapExcept (fun x => match x with
      | JValue.jstr s => Except.ok s
      | _ => Except.error (validation_error_msg x)) xs
  | _ => Except.error (validation_error_msg v)

/-- One entry of `parse_layer_scores`: `data.get(...)` requires a dict, and
the `LayerScore(...)` construction validates each field. -/
def validate_layer_score (layer_id : List Char) (data : JValue) :
    Except (List Char) LayerScore :=
  match data with
  | JValue.jobj d =>
    match validate_text_field (jGetD d ("name".toList)
        (JValue.jstr (("Layer ".toList) ++ layer_id))) with
    | Except.error m => Except.error m
    | Except.ok layer_name =>
      match jGetD d ("sub_scores".toList) (JValue.jobj []) with
      | JValue.jobj sub_scores =>
        match validate_str_list_field (jGetD d ("fail_conditions".toList) (JValue.jarr [])) with
        | Except.error m => Except.error m
        | Except.ok fail_conditions =>
          match validate_str_list_field (jGetD d ("evidence_notes".toList) (JValue.jarr [])) with
          | Except.error m => Except.error m
          | Except.ok evidence_notes =>
            match validate_text_field (jGetD d ("verdict".toList) (JValue.jstr ("Pass".toList))) with
            | Except.error m => Except.error m
            | Except.ok verdict =>
              if verdict = "Pass".toList ∨ verdict = "Weak Pass".toList ∨ verdict = "Fail".toList then
                Except.ok { layer_id := layer_id, layer_name := layer_name,
                            sub_scores := sub_scores, fail_conditions := fail_conditions,
                            evidence_notes := evidence_notes, verdict := verdict }
              else Except.error (validation_error_msg (JValue.jstr verdict))
      | x => Except.error (validation_error_msg x)
  | _ => Except.error attribute_error_msg

/-- `parse_layer_scores(layer_data)`: iterate `.items()` in insertion order;
a non-dict argument raises `AttributeError`. -/
def parse_layer_scores (v : JValue) : Except (List Char) (List LayerScore) :=
  match v with
  | JValue.jobj entries => mapExcept (fun p => validate_layer_score p.1 p.2) entries
  | _ => Except.error attribute_error_msg

/-- The `RoleEvaluation(...)` construction on the successful-reply path of
`evaluate_with_role` (evaluation.py lines 189-198), including the pydantic
validation it performs. -/
def validate_role_evaluation (role : RoleDefinition) (parsed : JValue) :
    Except (List Char) RoleEvaluation :=
  match parsed with
  | JValue.jobj flds =>
    match validate_result_field (jGetD flds ("result".toList) (JValue.jstr ("PASS".toList))) with
    | Except.error m => Except.error m
    | Except.ok result =>
      match validate_score_field (jGet flds ("score".toList)) with
      | Except.error m => Except.error m
      | Except.ok score =>
        match validate_confidence_field (jGetD flds ("confidence".toList) (JValue.jnum 0.5)) with
        | Except.error m => Except.error m
        | Except.ok confidence =>
          match validate_text_field (jGetD flds ("justification".toList)
              (JValue.jstr ("No justification provided".toList))) with
          | Except.error m => Except.error m
          | Except.ok justification =>
            match parse_layer_scores (jGetD flds ("layer_scores".toList) (JValue.jobj [])) with
            | Except.error m => Except.error m
            | Except.ok layer_scores =>
              Except.ok { role_id := role.id, role_name := role.name,
                          is_hard_gate := role.is_hard_gate, result := result,
                          score := score, confidence := confidence,
                          justification := justification, layer_scores := layer_scores }
  | _ => Except.error attribute_error_msg

-- ===========================================================================
-- evaluate_with_role (evaluation.py lines 130-215)
-- ===========================================================================

/-- The outcome of `await query_func(messages)` for one role: the function
returned `None`, raised an exception with the given `str(e)`, or returned a
response whose `content` is the given text (`response.get("content", "")`).
The messages themselves are a pure function of the role, the input and the
locked baseline, so within one run any query function induces exactly one
outcome per role; quantifying over `RoleDefinition → QueryResult` therefore
covers every query function. -/
inductive QueryResult where
  | none
  | raise (msg : List Char)
  | reply (content : List Char)

/-- The synthesized neutral evaluation when the model returns no response
(evaluation.py lines 167-178). -/
def no_response_eval (role : RoleDefinition) : RoleEvaluation :=
  { role_id := role.id, role_name := role.name, is_hard_gate := role.is_hard_gate,
    result := EvalResult.PASS, score := some 5, confidence := 0.3,
    justification :=
      "Model query failed. Defaulting to neutral score with low confidence.".toList,
    layer_scores := [] }

/-- The degraded evaluation built by the generic exception handler
(evaluation.py lines 205-215). -/
def query_error_eval (role : RoleDefinition) (msg : List Char) : RoleEvaluation :=
  { role_id := role.id, role_name := role.name, is_hard_gate := role.is_hard_gate,
    result := EvalResult.PASS, score := some 5, confidence := 0.2,
    justification := ("Evaluation error: ".toList) ++ msg,
    layer_scores := [] }

/-- `evaluate_with_role`: exceptions whose text contains "429" re-raise (both
those from the query itself and — vacuously, given the fixed messages above —
those from parsing/validation); every other failure degrades to a
low-confidence PASS.  The progress callback is ignored: it is observational
only. -/
def evaluate_with_role (role : RoleDefinition) (qr : QueryResult) :
    Except (List Char) RoleEvaluation :=
  match qr with
  | QueryResult.none => Except.ok (no_response_eval role)
  | QueryResult.raise m =>
    if contains429 m then Except.error m else Except.ok (query_error_eval role m)
  | QueryResult.reply c =>
    match validate_role_evaluation role (parse_evaluation_response c) with
    | Except.ok e => Except.ok e
    | Except.error m =>
      if contains429 m then Except.error m else Except.ok (query_error_eval role m)

-- ===========================================================================
-- calculate_fei (evaluation.py lines 266-301)
-- ===========================================================================

/-- `round(x, 1)` on the exact rational value: round to the nearest tenth.
Python rounds the nearest double half-to-even; on the exact values the
engine produces the two agree except on exact half-tenth ties, which no
claim exercises. -/
def round1 (q : ℚ) : ℚ := ((round (q * 10) : ℤ) : ℚ) / 10

/-- The loop body of `calculate_fei`: the accumulator carries
`(total, pattern_breaker_penalty)`.  FAIL rows are skipped outright; a row
with the pattern-breaker id overwrites the penalty (assignment, not
accumulation); every other row adds `score × confidence × weight` with the
registry weight (default 1.0). -/
def fei_step (pbid : Nat) (acc : ℚ × ℚ) (e : RoleEvaluation) : ℚ × ℚ :=
  if e.result = EvalResult.FAIL then acc
  else if e.role_id = pbid then
    (acc.1, (e.score.getD 0) * e.confidence * 0.5)
  else
    (acc.1 + (e.score.getD 0) * e.confidence * role_weights_get e.role_id, acc.2)

/-- `calculate_fei(role_evaluations, pattern_breaker_id)`. -/
def calculate_fei (role_evaluations : List RoleEvaluation) (pbid : Nat) : ℚ :=
  let st := role_evaluations.foldl (fei_step pbid) (0, 0)
  let fei := max 0 (st.1 - st.2)
  let normalized := fei / 80 * 100
  round1 (min 100 (max 0 normalized))


-- ===========================================================================
-- generate_final_report (evaluation.py lines 308-375)
-- ===========================================================================

/-- Python truthiness-guarded score tests: `e.score and e.score >= x` is
false when the score is `None` *or* exactly `0.0`. -/
def score_truthy_ge (e : RoleEvaluation) (x : ℚ) : Bool :=
  match e.score with
  | some s => decide (¬ s = 0) && decide (x ≤ s)
  | none => false

def score_truthy_lt (e : RoleEvaluation) (x : ℚ) : Bool :=
  match e.score with
  | some s => decide (¬ s = 0) && decide (s < x)
  | none => false

def strength_key (e : RoleEvaluation) : ℚ := (e.score.getD 0) * e.confidence

/-- Stable descending insertion (later elements go after earlier ones with
an equal key), modelling `list.sort(key=..., reverse=True)`, which is a
stable descending sort. -/
def insertDesc (e : RoleEvaluation) : List RoleEvaluation → List RoleEvaluation
  | [] => [e]
  | x :: xs => if strength_key x < strength_key e then e :: x :: xs else x :: insertDesc e xs

def sortByKeyDesc (l : List RoleEvaluation) : List RoleEvaluation :=
  l.foldl (fun acc e => insertDesc e acc) []

/-- The risk-collection loop: the Pattern Breaker's (id 6) truncated
justification, and `"role: justification"` for any role whose score is
truthy and < 5, in list order. -/
def risk_entries (evals : List RoleEvaluation) : List (List Char) :=
  evals.foldl
    (fun acc e =>
      if e.role_id = 6 then acc ++ [e.justification.take 200]
      else if score_truthy_lt e 5 then
        acc ++ [e.role_name ++ (": ".toList) ++ e.justification.take 150]
      else acc)
    []

/-- `generate_final_report`.  The `contextual_baseline` parameter of the
Python function is unused in its body and omitted here.  The division in
`avg_confidence` is ℚ-division (`x / 0 = 0`); Python would raise on an
empty list, which the orchestrator never passes. -/
def generate_final_report (role_evaluations : List RoleEvaluation) (fei : ℚ)
    (campaign_objective : List Char) : FinalReport :=
  let has_fails := role_evaluations.any (fun e => e.result = EvalResult.FAIL)
  let verdict :=
    if has_fails then "DO NOT RECOMMEND".toList
    else if 70 ≤ fei then "RECOMMEND".toList
    else if 40 ≤ fei then "REVISE BEFORE RECOMMENDATION".toList
    else "DO NOT RECOMMEND".toList
  let passing := role_evaluations.filter
    (fun e => decide (e.result = EvalResult.PASS) && score_truthy_ge e 7)
  let strengths := ((sortByKeyDesc passing).take 3).map (fun e => e.justification.take 200)
  let risks := (risk_entries role_evaluations).take 3
  let objLower := campaign_objective.map Char.toLower
  let commercial_role :=
    if containsSub ("long-term".toList) objLower then "Brand growth".toList
    else if containsSub ("short-term".toList) objLower then "Activation".toList
    else if containsSub ("mixed".toList) objLower then "Both".toList
    else "Brand growth".toList
  let revision :=
    if verdict = "REVISE BEFORE RECOMMENDATION".toList then
      let weak_areas := (role_evaluations.filter (fun e => score_truthy_lt e 6)).map
        (fun e => e.role_name)
      if weak_areas.isEmpty then none
      else some (("Focus improvement on: ".toList) ++
        List.intercalate (", ".toList) (weak_areas.take 3))
    else none
  let avg_confidence :=
    (role_evaluations.map (fun e => e.confidence)).sum / (role_evaluations.length : ℚ)
  let confidence_level :=
    if 0.8 ≤ avg_confidence then "High".toList
    else if 0.5 ≤ avg_confidence then "Medium".toList
    else "Low".toList
  { verdict := verdict
    top_strengths :=
      if strengths.isEmpty then ["Insufficient data for strength identification".toList]
      else strengths
    top_risks :=
      if risks.isEmpty then ["No material risks identified".toList] else risks
    predicted_commercial_role := commercial_role
    revision_guidance := revision
    confidence_level := confidence_level }

-- ===========================================================================
-- run_creative_evaluation (evaluation.py lines 435-528)
-- ===========================================================================

/-- The hard-gate scan predicate (evaluation.py line 484). -/
def is_hard_gate_fail (e : RoleEvaluation) : Bool :=
  e.is_hard_gate && decide (e.result = EvalResult.FAIL)

/-- `asyncio.gather` over the per-role evaluations: results are collected in
role order (gather returns results in argument order, independent of
completion order); a propagating exception from any role fails the whole
gather.  (When several roles raise, Python surfaces the temporally first
exception; this sequential model surfaces the first in role order — no claim
depends on *which* message propagates.) -/
def gather_evals (q : RoleDefinition → QueryResult)
    (roles : List RoleDefinition) : Except (List Char) (List RoleEvaluation) :=
  mapExcept (fun r => evaluate_with_role r (q r)) roles

/-- Steps 3-6 of `run_creative_evaluation` (hard-gate scan, FEI, report,
verdict/risk override), assembled into the terminal artifact. -/
def finalize (input : EvaluationInput) (evals : List RoleEvaluation) : EvaluationResult :=
  let firstHG := evals.find? is_hard_gate_fail
  let fei : ℚ :=
    match firstHG with
    | some _ => 0
    | none => calculate_fei evals 6
  let report0 := generate_final_report evals fei input.campaign_objective.value
  { role_evaluations := evals
    final_effectiveness_index := fei
    final_report :=
      match firstHG with
      | some e =>
        { report0 with
          verdict := "DO NOT RECOMMEND".toList,
          top_risks := (("HARD GATE FAILED: ".toList) ++ e.role_name) :: report0.top_risks }
      | none => report0
    hard_gate_failed := firstHG.isSome
    failed_hard_gate_role := firstHG.map (fun e => e.role_name) }

/-- `run_creative_evaluation(input_data, query_func, on_role_complete)`.
The progress callback is observational and omitted; `evaluation_id` and
`created_at` are impure identifiers outside every claim. -/
def run_creative_evaluation (input : EvaluationInput)
    (q : RoleDefinition → QueryResult) : Except (List Char) EvaluationResult :=
  match gather_evals q get_all_roles with
  | Except.error m => Except.error m
  | Except.ok evals => Except.ok (finalize input evals)

-- ===========================================================================
-- Characterizations and instance data used by the claim theorems
-- ===========================================================================

/-- Rows that contribute to the positive FEI sum: neither FAIL nor the
pattern breaker. -/
def fei_contributes (pbid : Nat) (e : RoleEvaluation) : Bool :=
  !(decide (e.result = EvalResult.FAIL)) && !(decide (e.role_id = pbid))

/-- Rows that (re)assign the pattern-breaker penalty: non-FAIL rows carrying
the pattern-breaker id. -/
def fei_is_pb (pbid : Nat) (e : RoleEvaluation) : Bool :=
  !(decide (e.result = EvalResult.FAIL)) && decide (e.role_id = pbid)

/-- The positive term of the FEI: `score × confidence × weight` summed over
the contributing rows. -/
def fei_positive_sum (evals : List RoleEvaluation) (pbid : Nat) : ℚ :=
  ((evals.filter (fei_contributes pbid)).map
    (fun e => (e.score.getD 0) * e.confidence * role_weights_get e.role_id)).sum

/-- The row whose pattern-breaker penalty survives: the last non-FAIL row
with the pattern-breaker id (penalty is assigned, not accumulated). -/
def fei_pattern_breaker (evals : List RoleEvaluation) (pbid : Nat) :
    Option RoleEvaluation :=
  evals.reverse.find? (fei_is_pb pbid)

/-- The penalty a pattern-breaker row contributes:
`score × confidence × 0.5` (0 in place of an absent score). -/
def fei_penalty_of (e : RoleEvaluation) : ℚ :=
  (e.score.getD 0) * e.confidence * 0.5

/-- The pattern-breaker penalty of the whole list: `score × confidence × 0.5`
of the surviving pattern-breaker row, zero when there is none. -/
def fei_penalty (evals : List RoleEvaluation) (pbid : Nat) : ℚ :=
  ((fei_pattern_breaker evals pbid).map fei_penalty_of).getD 0

/-- The clamp-normalize-round tail of `calculate_fei`. -/
def fei_normalize (x : ℚ) : ℚ :=
  round1 (min 100 (max 0 (max 0 x / 80 * 100)))

/-- The backtick character (0x60). -/
def backtick : Char := Char.ofNat 96

/-- Helper for writing concrete `RoleEvaluation` rows. -/
def mk_role_evaluation (r : RoleDefinition) (res : EvalResult) (s : Option ℚ)
    (c : ℚ) (j : List Char) : RoleEvaluation :=
  { role_id := r.id, role_name := r.name, is_hard_gate := r.is_hard_gate,
    result := res, score := s, confidence := c, justification := j,
    layer_scores := [] }

-- Concrete run for the C1 witness: the hard-gate role 2 replies FAIL, every
-- other model returns no response.

def c1_input : EvaluationInput := { campaign_objective := CampaignObjective.MIXED }

def c1_fail_json : List Char :=
  "\x7b\"result\": \"FAIL\", \"confidence\": 0.9, \"justification\": \"no commercial path\"\x7d".toList

def c1_query : RoleDefinition → QueryResult := fun r =>
  if r.id = 2 then QueryResult.reply c1_fail_json else QueryResult.none

def c1_fail_eval : RoleEvaluation :=
  { role_id := 2, role_name := role2.name, is_hard_gate := true,
    result := EvalResult.FAIL, score := none, confidence := 0.9,
    justification := "no commercial path".toList, layer_scores := [] }

def c1_evals : List RoleEvaluation :=
  [ no_response_eval role1, c1_fail_eval, no_response_eval role3,
    no_response_eval role4, no_response_eval role5, no_response_eval role6,
    no_response_eval role7, no_response_eval role8 ]

-- Concrete rows for the C2 witness: a lone pattern-breaker row with an
-- absent score.

def c2_pb_row : RoleEvaluation :=
  mk_role_evaluation role6 EvalResult.PASS none 0.9 ("no score given".toList)

def c2_rows : List RoleEvaluation :=
  [ mk_role_evaluation role1 EvalResult.PASS (some 8) 0.9 ("fine".toList), c2_pb_row ]

-- Concrete run for the C3 counterexample: the hard gate fails AND three
-- earlier roles score below 5, so the risk list is pushed past both the
-- declared cap and the Pattern Breaker's slot.

def c3_input : EvaluationInput := { campaign_objective := CampaignObjective.MIXED }

def c3_weak_json : List Char :=
  "\x7b\"result\": \"PASS\", \"score\": 2, \"confidence\": 0.9, \"justification\": \"weak\"\x7d".toList

def c3_good_json : List Char :=
  "\x7b\"result\": \"PASS\", \"score\": 8, \"confidence\": 0.9, \"justification\": \"good\"\x7d".toList

def c3_pb_json : List Char :=
  "\x7b\"result\": \"PASS\", \"score\": 8, \"confidence\": 0.9, \"justification\": \"pb risks\"\x7d".toList

def c3_query : RoleDefinition → QueryResult := fun r =>
  if r.id = 2 then QueryResult.reply c1_fail_json
  else if r.id = 1 ∨ r.id = 4 ∨ r.id = 5 then QueryResult.reply c3_weak_json
  else if r.id = 6 then QueryResult.reply c3_pb_json
  else QueryResult.reply c3_good_json

-- Concrete run for the C3 amended-claim witness: every model silent.

def c3w_input : EvaluationInput := { campaign_objective := CampaignObjective.MIXED }

def c3w_query : RoleDefinition → QueryResult := fun _ => QueryResult.none

def c3w_evals : List RoleEvaluation := get_all_roles.map no_response_eval

-- Concrete rows for C4: the spec's scenario (all roles PASS, score 8,
-- confidence 0.9, pattern breaker score 2).

def c4_evals : List RoleEvaluation :=
  [ mk_role_evaluation role1 EvalResult.PASS (some 8) 0.9 ("j1".toList),
    mk_role_evaluation role2 EvalResult.PASS (some 8) 0.9 ("j2".toList),
    mk_role_evaluation role3 EvalResult.PASS (some 8) 0.9 ("j3".toList),
    mk_role_evaluation role4 EvalResult.PASS (some 8) 0.9 ("j4".toList),
    mk_role_evaluation role5 EvalResult.PASS (some 8) 0.9 ("j5".toList),
    mk_role_evaluation role6 EvalResult.PASS (some 2) 0.9 ("j6".toList),
    mk_role_evaluation role7 EvalResult.PASS (some 8) 0.9 ("j7".toList),
    mk_role_evaluation role8 EvalResult.PASS (some 8) 0.9 ("j8".toList) ]

-- Concrete data for the C5 witness.

def c5_input : EvaluationInput := { campaign_objective := CampaignObjective.MIXED }

def c5_msg : List Char := "HTTP Error 429: Too Many Requests".toList

def c5_query : RoleDefinition → QueryResult := fun _ => QueryResult.raise c5_msg

-- Concrete data for the C6 witness.

def c6_msg : List Char := "connection reset by peer".toList

-- Concrete data for the C7 witness.

def c7_text : List Char := "The model rambled with no JSON at all.".toList

-- Concrete data for the C8 witness.

def c8_p1 : List Char := "Here is my verdict.\n".toList

def c8_mid : List Char :=
  "\n\x7b\"result\": \"PASS\", \"score\": 7, \"confidence\": 0.8, \"justification\": \"solid\"\x7d\n".toList

def c8_p2 : List Char := "\nHope that helps.".toList

def c8_flds : List (List Char × JValue) :=
  [ (("result").toList, JValue.jstr ("PASS".toList)),
    (("score").toList, JValue.jnum 7),
    (("confidence").toList, JValue.jnum 0.8),
    (("justification").toList, JValue.jstr ("solid".toList)) ]

-- Concrete data for the C9 witness.

theorem mapExcept_ok_mem {α β : Type} (f : α → Except (List Char) β) :
    ∀ (l : List α) (out : List β), mapExcept f l = Except.ok out →
      ∀ x, x ∈ l → ∃ y, f x = Except.ok y := by
  intro l
  induction l with
  | nil => intro out _ x hx; exact absurd hx (List.not_mem_nil x)
  | cons a as ih =>
    intro out h x hx
    unfold mapExcept at h
    cases ha : f a with
    | error m => rw [ha] at h; exact Except.noConfusion h
    | ok y =>
      rw [ha] at h
      cases hs : mapExcept f as with
      | error m => rw [hs] at h; exact Except.noConfusion h
      | ok ys =>
        rw [hs] at h
        cases hx with
        | head => exact ⟨y, ha⟩
        | tail _ hmem => exact ih ys hs x hmem

theorem mapExcept_ok_map {α β γ : Type} (f : α → Except (List Char) β)
    (g : β → γ) (proj : α → γ) :
    ∀ (l : List α) (out : List β), mapExcept f l = Except.ok out →
      (∀ x y, f x = Except.ok y → g y = proj x) →
      out.map g = l.map proj := by
  intro l
  induction l with
  | nil =>
    intro out h _
    unfold mapExcept at h
    cases h
    rfl
  | cons a as ih =>
    intro out h hcomm
    unfold mapExcept at h
    cases ha : f a with
    | error m => rw [ha] at h; exact Except.noConfusion h
    | ok y =>
      rw [ha] at h
      cases hs : mapExcept f as with
      | error m => rw [hs] at h; exact Except.noConfusion h
      | ok ys =>
        rw [hs] at h
        cases h
        simp [List.map_cons, hcomm a y ha, ih ys hs hcomm]

theorem mapExcept_ok_mem_rev {α β : Type} (f : α → Except (List Char) β) :
    ∀ (l : List α) (out : List β), mapExcept f l = Except.ok out →
      ∀ y, y ∈ out → ∃ x, x ∈ l ∧ f x = Except.ok y := by
  intro l
  induction l with
  | nil =>
    intro out h y hy
    unfold mapExcept at h
    cases h
    exact absurd hy (List.not_mem_nil y)
  | cons a as ih =>
    intro out h y hy
    unfold mapExcept at h
    cases ha : f a with
    | error m => rw [ha] at h; exact Except.noConfusion h
    | ok y0 =>
      rw [ha] at h
      cases hs : mapExcept f as with
      | error m => rw [hs] at h; exact Except.noConfusion h
      | ok ys =>
        rw [hs] at h
        cases h
        cases hy with
        | head => exact ⟨a, List.mem_cons_self a as, ha⟩
        | tail _ hmem =>
          obtain ⟨x, hx, hfx⟩ := ih ys hs y hmem
          exact ⟨x, List.mem_cons_of_mem a hx, hfx⟩

theorem mapExcept_error {α β : Type} (f : α → Except (List Char) β) :
    ∀ (l : List α) (m : List Char), mapExcept f l = Except.error m →
      ∃ x, x ∈ l ∧ f x = Except.error m := by
  intro l
  induction l with
  | nil => intro m h; exact Except.noConfusion h
  | cons a as ih =>
    intro m h
    unfold mapExcept at h
    cases ha : f a with
    | error m0 =>
      rw [ha] at h
      cases h
      exact ⟨a, List.mem_cons_self a as, ha⟩
    | ok y =>
      rw [ha] at h
      cases hs : mapExcept f as with
      | error m0 =>
        rw [hs] at h
        cases h
        obtain ⟨x, hx, hfx⟩ := ih _ hs
        exact ⟨x, List.mem_cons_of_mem a hx, hfx⟩
      | ok ys => rw [hs] at h; exact Except.noConfusion h

-- ===========================================================================
-- Lemmas: evaluate_with_role
-- ===========================================================================

theorem validate_role_evaluation_ok_role_id (role : RoleDefinition) (p : JValue)
    (e : RoleEvaluation) (h : validate_role_evaluation role p = Except.ok e) :
    e.role_id = role.id := by
  unfold validate_role_evaluation at h
  split at h
  · split at h
    · exact Except.noConfusion h
    · split at h
      · exact Except.noConfusion h
      · split at h
        · exact Except.noConfusion h
        · split at h
          · exact Except.noConfusion h
          · split at h
            · exact Except.noConfusion h
            · cases h; rfl
  · exact Except.noConfusion h

theorem evaluate_with_role_ok_role_id (role : RoleDefinition) (qr : QueryResult)
    (e : RoleEvaluation) (h : evaluate_with_role role qr = Except.ok e) :
    e.role_id = role.id := by
  cases qr with
  | none =>
    simp only [evaluate_with_role] at h
    cases h; rfl
  | raise m =>
    simp only [evaluate_with_role] at h
    split at h
    · exact Except.noConfusion h
    · cases h; rfl
  | reply c =>
    simp only [evaluate_with_role] at h
    split at h
    · next e0 hv => cases h; exact validate_role_evaluation_ok_role_id _ _ _ hv
    · split at h
      · exact Except.noConfusion h
      · cases h; rfl

theorem validate_result_field_ok_FAIL (v : JValue)
    (h : validate_result_field v = Except.ok EvalResult.FAIL) :
    v = JValue.jstr ("FAIL".toList) := by
  unfold validate_result_field at h
  split at h
  · next s =>
    split at h
    · exact absurd (Except.ok.inj h) (by decide)
    · split at h
      · next hs => rw [hs]
      · exact Except.noConfusion h
  · exact Except.noConfusion h

theorem validate_role_evaluation_ok_FAIL (role : RoleDefinition) (p : JValue)
    (e : RoleEvaluation) (h : validate_role_evaluation role p = Except.ok e)
    (hf : e.result = EvalResult.FAIL) :
    ∃ flds, p = JValue.jobj flds ∧
      jGet flds ("result".toList) = some (JValue.jstr ("FAIL".toList)) := by
  unfold validate_role_evaluation at h
  split at h
  · next flds =>
    split at h
    · exact Except.noConfusion h
    · next result hres =>
      split at h
      · exact Except.noConfusion h
      · split at h
        · exact Except.noConfusion h
        · split at h
          · exact Except.noConfusion h
          · split at h
            · exact Except.noConfusion h
            · cases h
              refine ⟨flds, rfl, ?_⟩
              have hfr : result = EvalResult.FAIL := hf
              rw [hfr] at hres
              have hv := validate_result_field_ok_FAIL _ hres
              unfold jGetD at hv
              cases hg : jGet flds ("result".toList) with
              | none =>
                rw [hg, Option.getD_none] at hv
                exact absurd (JValue.jstr.inj hv) (by decide)
              | some w =>
                rw [hg, Option.getD_some] at hv
                rw [hv]
  · exact Except.noConfusion h

/-- On the successful-reply path, a FAIL result can only come from a reply
that parsed to an object whose "result" entry is literally "FAIL". -/
theorem evaluate_with_role_ok_FAIL (role : RoleDefinition) (qr : QueryResult)
    (e : RoleEvaluation) (h : evaluate_with_role role qr = Except.ok e)
    (hf : e.result = EvalResult.FAIL) :
    ∃ c flds, qr = QueryResult.reply c ∧
      parse_evaluation_response c = JValue.jobj flds ∧
      jGet flds ("result".toList) = some (JValue.jstr ("FAIL".toList)) := by
  cases qr with
  | none =>
    simp only [evaluate_with_role] at h
    cases h
    simp [no_response_eval] at hf
  | raise m =>
    simp only [evaluate_with_role] at h
    split at h
    · exact Except.noConfusion h
    · cases h; simp [query_error_eval] at hf
  | reply c =>
    simp only [evaluate_with_role] at h
    split at h
    · next e0 hv =>
      cases h
      obtain ⟨flds, hp, hg⟩ := validate_role_evaluation_ok_FAIL _ _ _ hv hf
      exact ⟨c, flds, rfl, hp, hg⟩
    · split at h
      · exact Except.noConfusion h
      · cases h; simp [query_error_eval] at hf

theorem run_creative_evaluation_ok (input : EvaluationInput)
    (q : RoleDefinition → QueryResult) (res : EvaluationResult)
    (h : run_creative_evaluation input q = Except.ok res) :
    ∃ evals, gather_evals q get_all_roles = Except.ok evals ∧
      res = finalize input evals := by
  unfold run_creative_evaluation at h
  split at h
  · exact Except.noConfusion h
  · next evals hg => exact ⟨evals, hg, (Except.ok.inj h).symm⟩

theorem gather_evals_ok_ids (q : RoleDefinition → QueryResult)
    (evals : List RoleEvaluation)
    (h : gather_evals q get_all_roles = Except.ok evals) :
    evals.map (fun e => e.role_id) = [1, 2, 3, 4, 5, 6, 7, 8] := by
  have hm := mapExcept_ok_map (fun r => evaluate_with_role r (q r))
    (fun e => e.role_id) (fun r => r.id) get_all_roles evals h
    (fun r e he => evaluate_with_role_ok_role_id r (q r) e he)
  rw [hm]
  rfl

-- ===========================================================================
-- Claim theorems
-- ===========================================================================

/-- C1: Hard-gate invariant of `run_creative_evaluation`: in any completed
run in which some role evaluation is a hard gate with result FAIL, the
returned result has `hard_gate_failed = true`, a final effectiveness index
forced to 0.0, a final-report verdict of "DO NOT RECOMMEND", and
`failed_hard_gate_role` set to the name of the first such role — first both
in list order and in role-id order, since the evaluations come back exactly
one per registered role, ordered by ascending role id — regardless of the
other roles' scores. -/
theorem c1_hard_gate_invariant (input : EvaluationInput)
    (q : RoleDefinition → QueryResult) (res : EvaluationResult)
    (hrun : run_creative_evaluation input q = Except.ok res)
    (hfail : ∃ e ∈ res.role_evaluations, is_hard_gate_fail e = true) :
    res.hard_gate_failed = true ∧
    res.final_effectiveness_index = 0 ∧
    res.final_report.verdict = "DO NOT RECOMMEND".toList ∧
    res.failed_hard_gate_role =
      (res.role_evaluations.find? is_hard_gate_fail).map (fun e => e.role_name) ∧
    res.role_evaluations.map (fun e => e.role_id) = [1, 2, 3, 4, 5, 6, 7, 8] := by
  obtain ⟨evals, hg, rfl⟩ := run_creative_evaluation_ok input q res hrun
  have hre : (finalize input evals).role_evaluations = evals := rfl
  rw [hre] at hfail ⊢
  have hsome : (evals.find? is_hard_gate_fail).isSome := List.find?_isSome.mpr hfail
  obtain ⟨e0, he0⟩ := Option.isSome_iff_exists.mp hsome
  refine ⟨?_, ?_, ?_, ?_, gather_evals_ok_ids q evals hg⟩
  · simp [finalize, he0]
  · simp [finalize, he0]
  · simp [finalize, he0]
  · simp [finalize, he0]

/-- C1 witness: a concrete run in which the hard-gate role 2 replies FAIL
and every other model is silent. -/
theorem c1_hard_gate_invariant_witness :
    (finalize c1_input c1_evals).hard_gate_failed = true ∧
    (finalize c1_input c1_evals).final_effectiveness_index = 0 ∧
    (finalize c1_input c1_evals).final_report.verdict = "DO NOT RECOMMEND".toList ∧
    (finalize c1_input c1_evals).failed_hard_gate_role = some role2.name := by
  have h := c1_hard_gate_invariant c1_input c1_query (finalize c1_input c1_evals)
    (by with_unfolding_all rfl) (by with_unfolding_all decide)
  refine ⟨h.1, h.2.1, h.2.2.1, ?_⟩
  rw [h.2.2.2.1]
  rfl

/-- C5: A rate-limit-class error (an exception whose text carries the HTTP
429 signature) raised by the model query of any role is re-raised by
`evaluate_with_role` and propagates out of `run_creative_evaluation`: the
whole run fails and no `EvaluationResult` is produced, whatever the other
roles' queries would have returned. -/
theorem c5_rate_limit_propagates (input : EvaluationInput)
    (q : RoleDefinition → QueryResult) (r : RoleDefinition) (m : List Char)
    (hr : r ∈ get_all_roles) (hq : q r = QueryResult.raise m)
    (h429 : contains429 m = true) :
    evaluate_with_role r (QueryResult.raise m) = Except.error m ∧
    (run_creative_evaluation input q).toOption = none := by
  constructor
  · simp only [evaluate_with_role, h429]
    rfl
  · cases hrun : run_creative_evaluation input q with
    | error _ => rfl
    | ok res =>
      obtain ⟨evals, hg, _⟩ := run_creative_evaluation_ok input q res hrun
      obtain ⟨e, he⟩ :=
        mapExcept_ok_mem (fun r => evaluate_with_role r (q r)) get_all_roles evals hg r hr
      rw [hq] at he
      simp only [evaluate_with_role, h429] at he
      exact Except.noConfusion he

/-- C5 witness: a 429-flavoured exception from every model aborts the run. -/
theorem c5_rate_limit_propagates_witness :
    evaluate_with_role role3 (QueryResult.raise c5_msg) = Except.error c5_msg ∧
    (run_creative_evaluation c5_input c5_query).toOption = none := by
  exact c5_rate_limit_propagates c5_input c5_query role3 c5_msg
    (by with_unfolding_all decide) rfl (by decide)

/-- C6: Per-role degradation.  A query that returns no response yields a
synthesized PASS with score 5.0 and confidence 0.3; a query that raises a
non-rate-limit exception (no "429" in its text) yields a PASS with score
5.0, confidence 0.2 and the error text embedded in the justification; in
both cases `evaluate_with_role` returns a `RoleEvaluation` rather than
letting the error escape. -/
theorem c6_per_role_degradation (role : RoleDefinition) (m : List Char)
    (h429 : contains429 m = false) :
    evaluate_with_role role QueryResult.none = Except.ok
      { role_id := role.id, role_name := role.name, is_hard_gate := role.is_hard_gate,
        result := EvalResult.PASS, score := some 5, confidence := 0.3,
        justification :=
          "Model query failed. Defaulting to neutral score with low confidence.".toList,
        layer_scores := [] } ∧
    evaluate_with_role role (QueryResult.raise m) = Except.ok
      { role_id := role.id, role_name := role.name, is_hard_gate := role.is_hard_gate,
        result := EvalResult.PASS, score := some 5, confidence := 0.2,
        justification := ("Evaluation error: ".toList) ++ m,
        layer_scores := [] } := by
  constructor
  · rfl
  · simp only [evaluate_with_role, h429]
    rfl

/-- C6 witness: a silent model and an ordinary connection error both degrade
to low-confidence PASS evaluations. -/
theorem c6_per_role_degradation_witness :
    evaluate_with_role role4 QueryResult.none = Except.ok
      { role_id := role4.id, role_name := role4.name, is_hard_gate := role4.is_hard_gate,
        result := EvalResult.PASS, score := some 5, confidence := 0.3,
        justification :=
          "Model query failed. Defaulting to neutral score with low confidence.".toList,
        layer_scores := [] } ∧
    evaluate_with_role role4 (QueryResult.raise c6_msg) = Except.ok
      { role_id := role4.id, role_name := role4.name, is_hard_gate := role4.is_hard_gate,
        result := EvalResult.PASS, score := some 5, confidence := 0.2,
        justification := ("Evaluation error: ".toList) ++ c6_msg,
        layer_scores := [] } :=
  c6_per_role_degradation role4 c6_msg (by decide)

/-- C10 (implicit): every `RoleEvaluation` synthesized on a degraded path —
silent model, non-rate-limit exception, or the parser's fallback for an
undecodable reply — has result PASS, and conversely a FAIL evaluation can
only arise from a reply that actually parsed to an object whose "result"
entry is the literal string "FAIL"; hence a role's model failure or
malformed reply can never by itself trip the hard gate of a completed run. -/
theorem c10_degraded_paths_pass (role : RoleDefinition) (qr : QueryResult)
    (e : RoleEvaluation) (hok : evaluate_with_role role qr = Except.ok e) :
    ((qr = QueryResult.none ∨ (∃ m, qr = QueryResult.raise m) ∨
      (∃ c, qr = QueryResult.reply c ∧
        parse_evaluation_response c = parse_fallback)) →
      e.result = EvalResult.PASS) ∧
    (e.result = EvalResult.FAIL →
      ∃ c flds, qr = QueryResult.reply c ∧
        parse_evaluation_response c = JValue.jobj flds ∧
        jGet flds ("result".toList) = some (JValue.jstr ("FAIL".toList))) ∧
    (∀ input q res, run_creative_evaluation input q = Except.ok res →
      res.hard_gate_failed = true →
      ∃ r c flds, r ∈ get_all_roles ∧ q r = QueryResult.reply c ∧
        parse_evaluation_response c = JValue.jobj flds ∧
        jGet flds ("result".toList) = some (JValue.jstr ("FAIL".toList))) := by
  refine ⟨?_, evaluate_with_role_ok_FAIL role qr e hok, ?_⟩
  · intro hdeg
    by_contra hne
    have hf : e.result = EvalResult.FAIL := by
      cases hres : e.result
      · exact absurd hres hne
      · rfl
    obtain ⟨c, flds, hqr, _, _⟩ := evaluate_with_role_ok_FAIL role qr e hok hf
    rcases hdeg with h0 | ⟨m, hm⟩ | ⟨c2, hc2, hfb⟩
    · rw [h0] at hqr; exact QueryResult.noConfusion hqr
    · rw [hm] at hqr; exact QueryResult.noConfusion hqr
    · rw [hc2] at hqr hok
      have hval : validate_role_evaluation role parse_fallback =
          Except.ok (RoleEvaluation.mk role.id role.name role.is_hard_gate
            EvalResult.PASS (some 5) 0.3 ("Failed to parse response".toList) []) := by
        with_unfolding_all rfl
      simp only [evaluate_with_role, hfb, hval] at hok
      cases hok
      exact hne rfl
  · intro input q res hrun hhg
    obtain ⟨evals, hg, rfl⟩ := run_creative_evaluation_ok input q res hrun
    have hhg2 : (evals.find? is_hard_gate_fail).isSome = true := hhg
    obtain ⟨e0, he0⟩ := Option.isSome_iff_exists.mp hhg2
    have hmem : e0 ∈ evals := List.mem_of_find?_eq_some he0
    have hpe : is_hard_gate_fail e0 = true := List.find?_some he0
    have hfail : e0.result = EvalResult.FAIL := by
      unfold is_hard_gate_fail at hpe
      exact of_decide_eq_true (Bool.and_elim_right hpe)
    obtain ⟨r, hr, hre⟩ :=
      mapExcept_ok_mem_rev (fun r => evaluate_with_role r (q r)) get_all_roles evals hg e0 hmem
    obtain ⟨c, flds, hqr, hp, hlook⟩ := evaluate_with_role_ok_FAIL r (q r) e0 hre hfail
    exact ⟨r, c, flds, hr, hqr, hp, hlook⟩

/-- C10 witness: a silent model's synthesized evaluation is a PASS. -/
theorem c10_degraded_paths_pass_witness :
    (no_response_eval role7).result = EvalResult.PASS :=
  (c10_degraded_paths_pass role7 QueryResult.none (no_response_eval role7) rfl).1
    (Or.inl rfl)

-- ===========================================================================
-- Lemmas: calculate_fei
-- ===========================================================================

theorem round1_bounds (y : ℚ) (h0 : 0 ≤ y) (h1 : y ≤ 100) :
    0 ≤ round1 y ∧ round1 y ≤ 100 := by
  unfold round1
  have habs := abs_sub_round (y * 10)
  rw [abs_le] at habs
  obtain ⟨hl, hr⟩ := habs
  have hzi : (0 : ℤ) ≤ round (y * 10) := by
    have hlo : (-1 : ℚ) < ((round (y * 10) : ℤ) : ℚ) := by nlinarith
    have : (-1 : ℤ) < round (y * 10) := by exact_mod_cast hlo
    omega
  have hui : round (y * 10) ≤ (1000 : ℤ) := by
    have hhi : ((round (y * 10) : ℤ) : ℚ) < 1001 := by nlinarith
    have : round (y * 10) < (1001 : ℤ) := by exact_mod_cast hhi
    omega
  constructor
  · apply div_nonneg _ (by norm_num)
    exact_mod_cast hzi
  · rw [div_le_iff₀ (by norm_num)]
    have : ((round (y * 10) : ℤ) : ℚ) ≤ 1000 := by exact_mod_cast hui
    linarith

theorem fei_fold_fst (pbid : Nat) :
    ∀ (evals : List RoleEvaluation) (acc : ℚ × ℚ),
      (evals.foldl (fei_step pbid) acc).1 = acc.1 + fei_positive_sum evals pbid := by
  intro evals
  induction evals with
  | nil => intro acc; simp [fei_positive_sum]
  | cons e es ih =>
    intro acc
    rw [List.foldl_cons, ih (fei_step pbid acc e)]
    by_cases hfail : e.result = EvalResult.FAIL
    · simp [fei_step, hfail, fei_positive_sum, List.filter_cons, fei_contributes]
    · by_cases hpb : e.role_id = pbid
      · simp [fei_step, hfail, hpb, fei_positive_sum, List.filter_cons, fei_contributes]
      · simp [fei_step, hfail, hpb, fei_positive_sum, List.filter_cons, fei_contributes]
        ring

theorem fei_fold_snd (pbid : Nat) :
    ∀ (evals : List RoleEvaluation) (acc : ℚ × ℚ),
      (evals.foldl (fei_step pbid) acc).2 =
        ((evals.reverse.find? (fei_is_pb pbid)).map fei_penalty_of).getD acc.2 := by
  intro evals
  induction evals with
  | nil => intro acc; simp
  | cons e es ih =>
    intro acc
    rw [List.foldl_cons, ih (fei_step pbid acc e), List.reverse_cons, List.find?_append]
    cases hfind : es.reverse.find? (fei_is_pb pbid) with
    | some e' => simp [Option.or]
    | none =>
      simp only [Option.or]
      by_cases hpb : fei_is_pb pbid e = true
      · have hnf : ¬ e.result = EvalResult.FAIL := by
          unfold fei_is_pb at hpb
          have := Bool.and_elim_left hpb
          simpa using this
        have hid : e.role_id = pbid := by
          unfold fei_is_pb at hpb
          exact of_decide_eq_true (Bool.and_elim_right hpb)
        simp [List.find?, hpb, fei_step, hnf, hid, fei_penalty_of]
      · have hpb' : fei_is_pb pbid e = false := by
          cases h : fei_is_pb pbid e
          · rfl
          · exact absurd h hpb
        rw [show List.find? (fei_is_pb pbid) [e] = none by simp [List.find?, hpb']]
        unfold fei_step
        by_cases hfail : e.result = EvalResult.FAIL
        · simp [hfail]
        · have hid : ¬ e.role_id = pbid := by
            intro hid
            apply hpb
            unfold fei_is_pb
            simp [hfail, hid]
          simp [hfail, hid]

/-- `calculate_fei` computed in closed form: the positive sum over non-FAIL,
non-pattern-breaker rows minus the pattern-breaker penalty, clamped,
normalized by the fixed ceiling 80, and rounded to one decimal. -/
theorem calculate_fei_characterization (evals : List RoleEvaluation) (pbid : Nat) :
    calculate_fei evals pbid =
      fei_normalize (fei_positive_sum evals pbid - fei_penalty evals pbid) := by
  simp only [calculate_fei, fei_normalize, fei_penalty, fei_pattern_breaker]
  rw [fei_fold_fst, fei_fold_snd]
  simp

/-- C2: For every list of role evaluations, `calculate_fei` (with the fixed
pattern-breaker id 6) lands in [0, 100]; it equals the normalization of a
positive sum ranging only over non-FAIL, non-pattern-breaker rows minus the
pattern-breaker penalty `score × confidence × 0.5`; and the penalty is 0
when the pattern-breaker row's score is absent. -/
theorem c2_calculate_fei_spec (evals : List RoleEvaluation) :
    0 ≤ calculate_fei evals 6 ∧ calculate_fei evals 6 ≤ 100 ∧
    calculate_fei evals 6 =
      fei_normalize (fei_positive_sum evals 6 - fei_penalty evals 6) ∧
    (∀ e, fei_pattern_breaker evals 6 = some e → e.score = none →
      fei_penalty evals 6 = 0) := by
  refine ⟨?_, ?_, calculate_fei_characterization evals 6, ?_⟩
  · simp only [calculate_fei]
    exact (round1_bounds _ (le_min (by norm_num) (le_max_left _ _)) (min_le_left _ _)).1
  · simp only [calculate_fei]
    exact (round1_bounds _ (le_min (by norm_num) (le_max_left _ _)) (min_le_left _ _)).2
  · intro e he hs
    unfold fei_penalty
    rw [he]
    simp [fei_penalty_of, hs]

/-- C2 witness: a two-row list whose pattern-breaker row has no score. -/
theorem c2_calculate_fei_spec_witness :
    0 ≤ calculate_fei c2_rows 6 ∧ fei_penalty c2_rows 6 = 0 :=
  ⟨(c2_calculate_fei_spec c2_rows).1,
   (c2_calculate_fei_spec c2_rows).2.2.2 c2_pb_row (by with_unfolding_all rfl) rfl⟩

/-- C4 counterexample: in the spec's scenario (all 8 roles PASS with score 8
and confidence 0.9 except the pattern breaker's score 2) the computed FEI is
below 70, so the verdict is not "RECOMMEND" — the claim's conclusion fails
on the code. -/
theorem c4_counterexample :
    ¬ 70 ≤ calculate_fei c4_evals 6 ∧
    (generate_final_report c4_evals (calculate_fei c4_evals 6)
        CampaignObjective.LONG_TERM_BRAND.value).verdict ≠ "RECOMMEND".toList := by
  constructor
  · with_unfolding_all decide
  · with_unfolding_all decide

/-- C4 amended: with the registered weights the scenario yields
FEI = 67.3 (exact arithmetic; the positive sum 54.72 minus the small
pattern-breaker penalty 0.9, normalized by the fixed ceiling 80), which is
below the 70 threshold, so the final report's verdict is
"REVISE BEFORE RECOMMENDATION" rather than "RECOMMEND". -/
theorem c4_amended_scenario :
    calculate_fei c4_evals 6 = 67.3 ∧
    (generate_final_report c4_evals (calculate_fei c4_evals 6)
        CampaignObjective.LONG_TERM_BRAND.value).verdict =
      "REVISE BEFORE RECOMMENDATION".toList := by
  constructor
  · with_unfolding_all decide
  · with_unfolding_all decide

/-- C7: `parse_evaluation_response` is total (it is a Lean function — the
Python original catches every decode error), and on any text from which no
JSON value can be decoded — the (fence-extracted) content fails the strict
decode and the brace-delimited span, when one exists, fails as well — it
returns exactly the fallback
`{result: "PASS", score: 5.0, confidence: 0.3, justification: "Failed to parse response"}`. -/
theorem c7_parse_degradation (c : List Char)
    (h1 : json_loads (extractFenced c) = none)
    (h2 : (braceSpan (extractFenced c)).bind json_loads = none) :
    parse_evaluation_response c = parse_fallback := by
  simp only [parse_evaluation_response, h1]
  cases hb : braceSpan (extractFenced c) with
  | none => rfl
  | some sp =>
    rw [hb] at h2
    simp only [Option.bind] at h2
    simp only [h2]

/-- C7 witness: prose with no decodable JSON collapses to the fallback. -/
theorem c7_parse_degradation_witness :
    parse_evaluation_response c7_text = parse_fallback :=
  c7_parse_degradation c7_text (by with_unfolding_all rfl)
    (by with_unfolding_all rfl)

-- ===========================================================================
-- Lemmas: fenced-block extraction (for C8)
-- ===========================================================================

theorem strFind_cons (needle : List Char) (c : Char) (tail : List Char) :
    strFind needle (c :: tail) =
      if needle.isPrefixOf (c :: tail) then some 0
      else (strFind needle tail).map (· + 1) := rfl

/-- `str.find` locates a needle placed right after a stretch of text that
nowhere contains the needle's first character. -/
theorem strFind_prefix_match (n0 : Char) (ns p r : List Char)
    (h : ∀ c ∈ p, c ≠ n0) :
    strFind (n0 :: ns) (p ++ ((n0 :: ns) ++ r)) = some p.length := by
  induction p with
  | nil =>
    rw [List.nil_append, List.cons_append, strFind_cons, if_pos]
    · rfl
    · rw [← List.cons_append]
      exact List.isPrefixOf_iff_prefix.mpr (List.prefix_append _ _)
  | cons a p' ih =>
    have ha : a ≠ n0 := h a (List.mem_cons_self a p')
    rw [List.cons_append, strFind_cons, if_neg, ih (fun c hc => h c (List.mem_cons_of_mem a hc))]
    · rfl
    · intro hpre
      have hp := List.isPrefixOf_iff_prefix.mp hpre
      rw [List.cons_prefix_cons] at hp
      exact ha hp.1.symm

theorem json_loads_nil : json_loads ([] : List Char) = none := by
  with_unfolding_all rfl

/-- A ```json fence enclosed in backtick-free prose (on the left) around a
backtick-free body extracts to the stripped body. -/
theorem extractFenced_tagged (p1 mid p2 : List Char)
    (hp1 : ∀ c ∈ p1, c ≠ backtick) (hmid : ∀ c ∈ mid, c ≠ backtick)
    (hne : mid ≠ []) :
    extractFenced (p1 ++ (jsonFence ++ (mid ++ (fence3 ++ p2)))) = pyStrip mid := by
  have hjf : jsonFence = backtick :: (("``json").toList) := rfl
  have h1 : strFind jsonFence (p1 ++ (jsonFence ++ (mid ++ (fence3 ++ p2))))
      = some p1.length := by
    rw [hjf]
    exact strFind_prefix_match backtick _ p1 _ hp1
  have hlen : (p1 ++ jsonFence).length = p1.length + 7 := by
    rw [List.length_append]; rfl
  have hdrop : (p1 ++ (jsonFence ++ (mid ++ (fence3 ++ p2)))).drop (p1.length + 7)
      = mid ++ (fence3 ++ p2) := by
    rw [show p1 ++ (jsonFence ++ (mid ++ (fence3 ++ p2)))
        = (p1 ++ jsonFence) ++ (mid ++ (fence3 ++ p2)) from (List.append_assoc _ _ _).symm]
    rw [← hlen]
    exact List.drop_left _ _
  have hf3 : fence3 = backtick :: (("``").toList) := rfl
  have h2 : strFind fence3 (mid ++ (fence3 ++ p2)) = some mid.length := by
    rw [hf3]
    exact strFind_prefix_match backtick _ mid _ hmid
  have hpos : 0 < mid.length := List.length_pos.mpr hne
  unfold extractFenced
  simp only [h1, hdrop, h2, hpos, if_true, List.take_left]

/-- A plain ``` fence in backtick-free prose extracts to the stripped body,
provided the text nowhere contains the tagged marker ```json. -/
theorem extractFenced_untagged (p1 mid p2 : List Char)
    (hp1 : ∀ c ∈ p1, c ≠ backtick) (hmid : ∀ c ∈ mid, c ≠ backtick)
    (hne : mid ≠ [])
    (hno : strFind jsonFence (p1 ++ (fence3 ++ (mid ++ (fence3 ++ p2)))) = none) :
    extractFenced (p1 ++ (fence3 ++ (mid ++ (fence3 ++ p2)))) = pyStrip mid := by
  have hf3 : fence3 = backtick :: (("``").toList) := rfl
  have h1 : strFind fence3 (p1 ++ (fence3 ++ (mid ++ (fence3 ++ p2))))
      = some p1.length := by
    rw [hf3]
    exact strFind_prefix_match backtick _ p1 _ hp1
  have hlen : (p1 ++ fence3).length = p1.length + 3 := by
    rw [List.length_append]; rfl
  have hdrop : (p1 ++ (fence3 ++ (mid ++ (fence3 ++ p2)))).drop (p1.length + 3)
      = mid ++ (fence3 ++ p2) := by
    rw [show p1 ++ (fence3 ++ (mid ++ (fence3 ++ p2)))
        = (p1 ++ fence3) ++ (mid ++ (fence3 ++ p2)) from (List.append_assoc _ _ _).symm]
    rw [← hlen]
    exact List.drop_left _ _
  have h2 : strFind fence3 (mid ++ (fence3 ++ p2)) = some mid.length := by
    rw [hf3]
    exact strFind_prefix_match backtick _ mid _ hmid
  have hpos : 0 < mid.length := List.length_pos.mpr hne
  unfold extractFenced
  simp only [hno, h1, hdrop, h2, hpos, if_true, List.take_left]

/-- C8: Parser round-trip.  Any JSON verdict object whose serialization sits
inside a fenced code block — tagged (```json … ```) or untagged (``` … ```)
— surrounded by prose carrying no other fence markers (formalized as: no
backticks in the leading prose or the body, and, for the untagged form, no
occurrence of the tagged marker anywhere) is recovered exactly: the parser
returns precisely the decoded object. -/
theorem c8_parse_round_trip (p1 mid p2 : List Char)
    (flds : List (List Char × JValue))
    (hp1 : ∀ c ∈ p1, c ≠ backtick) (hmid : ∀ c ∈ mid, c ≠ backtick)
    (hjson : json_loads (pyStrip mid) = some (JValue.jobj flds))
    (hno : strFind jsonFence (p1 ++ (fence3 ++ (mid ++ (fence3 ++ p2)))) = none) :
    parse_evaluation_response (p1 ++ (jsonFence ++ (mid ++ (fence3 ++ p2))))
      = JValue.jobj flds ∧
    parse_evaluation_response (p1 ++ (fence3 ++ (mid ++ (fence3 ++ p2))))
      = JValue.jobj flds := by
  have hne : mid ≠ [] := by
    intro h0
    rw [h0] at hjson
    rw [show pyStrip ([] : List Char) = [] from rfl, json_loads_nil] at hjson
    exact Option.noConfusion hjson
  constructor
  · simp only [parse_evaluation_response,
      extractFenced_tagged p1 mid p2 hp1 hmid hne, hjson]
  · simp only [parse_evaluation_response,
      extractFenced_untagged p1 mid p2 hp1 hmid hne hno, hjson]

/-- C8 witness: a concrete verdict object in a tagged and an untagged fence
with prose around it. -/
theorem c8_parse_round_trip_witness :
    parse_evaluation_response (c8_p1 ++ (jsonFence ++ (c8_mid ++ (fence3 ++ c8_p2))))
      = JValue.jobj c8_flds ∧
    parse_evaluation_response (c8_p1 ++ (fence3 ++ (c8_mid ++ (fence3 ++ c8_p2))))
      = JValue.jobj c8_flds :=
  c8_parse_round_trip c8_p1 c8_mid c8_p2 c8_flds
    (by decide) (by decide) (by with_unfolding_all rfl) (by with_unfolding_all rfl)

-- ===========================================================================
-- Lemmas and theorems for C3
-- ===========================================================================

theorem generate_final_report_top_risks_le3 (evals : List RoleEvaluation)
    (fei : ℚ) (obj : List Char) :
    (generate_final_report evals fei obj).top_risks.length ≤ 3 := by
  simp only [generate_final_report]
  split
  · decide
  · simp [List.length_take]

/-- C3 amended: after any completed run, `top_risks` has at most 3 entries
when no hard gate failed and at most 4 when one did — the hard-gate entry is
prepended to an already-capped list and occupies the first slot.  (The
original claim's cap of 3 and its guarantee that the Pattern Breaker's
justification is always present both fail: see the counterexample.) -/
theorem c3_top_risks_amended (input : EvaluationInput)
    (q : RoleDefinition → QueryResult) (res : EvaluationResult)
    (hrun : run_creative_evaluation input q = Except.ok res) :
    res.final_report.top_risks.length ≤ (if res.hard_gate_failed then 4 else 3) ∧
    (∀ e, res.role_evaluations.find? is_hard_gate_fail = some e →
      res.final_report.top_risks.head? =
        some (("HARD GATE FAILED: ".toList) ++ e.role_name)) := by
  obtain ⟨evals, hg, rfl⟩ := run_creative_evaluation_ok input q res hrun
  cases hfind : evals.find? is_hard_gate_fail with
  | none =>
    constructor
    · have hhg : (finalize input evals).hard_gate_failed = false := by
        simp [finalize, hfind]
      rw [hhg]
      have hrep : (finalize input evals).final_report =
          generate_final_report evals (calculate_fei evals 6)
            input.campaign_objective.value := by
        simp [finalize, hfind]
      rw [hrep]
      simpa using generate_final_report_top_risks_le3 evals _ _
    · intro e he
      rw [show (finalize input evals).role_evaluations = evals from rfl, hfind] at he
      exact Option.noConfusion he
  | some e0 =>
    constructor
    · have hhg : (finalize input evals).hard_gate_failed = true := by
        simp [finalize, hfind]
      rw [hhg]
      have hrep : (finalize input evals).final_report.top_risks =
          (("HARD GATE FAILED: ".toList) ++ e0.role_name) ::
            (generate_final_report evals 0 input.campaign_objective.value).top_risks := by
        simp [finalize, hfind]
      rw [hrep]
      have := generate_final_report_top_risks_le3 evals 0 input.campaign_objective.value
      simp only [List.length_cons, if_true]
      omega
    · intro e he
      rw [show (finalize input evals).role_evaluations = evals from rfl, hfind] at he
      have he0 : e0 = e := Option.some.inj he
      subst he0
      simp [finalize, hfind]

/-- C3 counterexample: a run in which the hard gate fails and three earlier
roles score below 5.  The resulting `top_risks` has 4 entries (the declared
cap is 3), and the Pattern Breaker's justification ("pb risks") has been
crowded out of the list entirely. -/
theorem c3_top_risks_counterexample :
    (run_creative_evaluation c3_input c3_query).map
      (fun res => (res.final_report.top_risks.length,
        decide (("pb risks".toList) ∈ res.final_report.top_risks)))
      = Except.ok (4, false) := by
  with_unfolding_all rfl

/-- C3 amended witness: a quiet run (every model silent) stays within the
3-entry cap. -/
theorem c3_top_risks_amended_witness :
    (finalize c3w_input c3w_evals).final_report.top_risks.length ≤ 3 := by
  have h := (c3_top_risks_amended c3w_input c3w_query (finalize c3w_input c3w_evals)
    (by with_unfolding_all rfl)).1
  rw [show (finalize c3w_input c3w_evals).hard_gate_failed = false from
    by with_unfolding_all rfl] at h
  simpa using h
